import Mathlib

/-!
Verification of the puzzle-reactor repository: a shallow embedding of
`src/puzzle_client_patched.py` (the cookie-forwarding WebSocket subscription
executor `PuzzleClient.execute_ws`) and `src/main.py` (the `PuzzleReactor`
class: WebSocket URL derivation, `login`, `fetch_projects`), together with
theorems settling the specification's claims about them.

Python dictionaries are embedded as insertion-ordered association lists
(`Headers`), the HTTP client's cookie jar as a list of name/value pairs in
jar iteration order, and `str.replace` as a left-to-right non-overlapping
scan.  Network responses and the random operation-id supply are passed as
explicit parameters.
-/

/-- A Python `dict[str, str]` as an insertion-ordered association list. -/
abbrev Headers := List (String × String)

/-- Dictionary lookup (`d[k]` / `d.get(k)`): the value at the first matching
key, if any.  Association lists built by `dictInsert` have unique keys, so
this is the dictionary lookup. -/
def dictGet (d : Headers) (k : String) : Option String :=
  match d with
  | [] => none
  | (k2, v) :: rest => if k2 = k then some v else dictGet rest k

/-- Python `d[k] = v`: overwrite in place if the key exists (keeping its
insertion position), otherwise append at the end. -/
def dictInsert (d : Headers) (k : String) (v : String) : Headers :=
  match d with
  | [] => [(k, v)]
  | (k2, v2) :: rest =>
    if k2 = k then (k2, v) :: rest else (k2, v2) :: dictInsert rest k v

/-- Python `d.update(e)`: insert every pair of `e` into `d`, left to right. -/
def dictUpdate (d : Headers) (e : Headers) : Headers :=
  e.foldl (fun acc kv => dictInsert acc kv.1 kv.2) d

/-- Embedding of lines 88-93 of `puzzle_client_patched.py`: the cookie jar
serialized as `"; ".join(f"{cookie.name}={cookie.value}" for cookie in jar)`,
in jar iteration order. -/
def cookie_header : List (String × String) → String
  | [] => ""
  | [c] => c.1 ++ "=" ++ c.2
  | c :: c2 :: rest => c.1 ++ "=" ++ c.2 ++ "; " ++ cookie_header (c2 :: rest)

/-- Embedding of lines 83-95 of `puzzle_client_patched.py`: the `headers`
dict that `execute_ws` builds for the WebSocket connection.  It starts from a
copy of `self.ws_headers`, is updated with the caller's `extra_headers`, and
then - if the jar is non-empty and the serialized cookie string is non-empty -
the `"Cookie"` key is overwritten with the jar snapshot. -/
def ws_headers_for_connection (ws_headers extra_headers : Headers)
    (jar : List (String × String)) : Headers :=
  let headers := dictUpdate ws_headers extra_headers
  if jar.isEmpty then headers
  else
    let ch := cookie_header jar
    if ch = "" then headers else dictInsert headers "Cookie" ch

/-- Merge as the spec's words describe it in C3: default headers, then the
cookie header, then caller-supplied headers, with the caller winning for
every key present in more than one source. -/
def spec_header_merge (ws_headers extra_headers : Headers)
    (jar : List (String × String)) : Headers :=
  let withCookie :=
    if jar.isEmpty then ws_headers
    else dictInsert ws_headers "Cookie" (cookie_header jar)
  dictUpdate withCookie extra_headers

lemma dictGet_dictInsert (d : Headers) (k v : String) :
    dictGet (dictInsert d k v) k = some v := by
  induction d with
  | nil => simp [dictInsert, dictGet]
  | cons p rest ih =>
    by_cases h : p.1 = k
    · simp [dictInsert, dictGet, h]
    · simp [dictInsert, dictGet, h, ih]

lemma cookie_header_length_pos (c : String × String)
    (rest : List (String × String)) :
    0 < (cookie_header (c :: rest)).length := by
  cases rest with
  | nil =>
    simp only [cookie_header, String.length_append]
    have h1 : ("=" : String).length = 1 := by decide
    omega
  | cons d t =>
    simp only [cookie_header, String.length_append]
    have h1 : ("=" : String).length = 1 := by decide
    omega

lemma cookie_header_ne_empty (c : String × String)
    (rest : List (String × String)) :
    cookie_header (c :: rest) ≠ "" := by
  intro h
  have hpos := cookie_header_length_pos c rest
  rw [h] at hpos
  exact absurd hpos (by decide)

example : cookie_header [("a", "1"), ("b", "2")] = "a=1; b=2" := by decide
example : ws_headers_for_connection [] [("Cookie", "x=9")] [("a", "1")]
    = [("Cookie", "a=1")] := by decide
example : spec_header_merge [] [("Cookie", "x=9")] [("a", "1")]
    = [("Cookie", "x=9")] := by decide

/-- Embedding of Python `str.replace` for a non-empty pattern, on character
lists: a single left-to-right scan replacing every non-overlapping occurrence
of `pat` by `repl`.  The first argument counts characters of an already
matched occurrence that are still to be consumed; the scan proper runs at
count `0`.  (Python's empty-pattern behaviour is never exercised by the
source, which only replaces the non-empty literals below.) -/
def pyReplaceAux (pat repl : List Char) : Nat → List Char → List Char
  | _, [] => []
  | Nat.succ k, _ :: rest => pyReplaceAux pat repl k rest
  | 0, c :: rest =>
    if pat.isEmpty = false ∧ pat.isPrefixOf (c :: rest) = true then
      repl ++ pyReplaceAux pat repl (pat.length - 1) rest
    else
      c :: pyReplaceAux pat repl 0 rest

/-- Python `s.replace(pat, repl)` on strings. -/
def pyReplace (s pat repl : String) : String :=
  ⟨pyReplaceAux pat.data repl.data 0 s.data⟩

/-- Embedding of lines 45-47 of `main.py`: the WebSocket URL derived from the
HTTP endpoint by `PUZZLE_API.replace("http", "ws").replace("/api/graphql",
"/api/graphql/ws")`. -/
def ws_url (PUZZLE_API : String) : String :=
  pyReplace (pyReplace PUZZLE_API "http" "ws") "/api/graphql" "/api/graphql/ws"

/-- Splitting on every non-overlapping occurrence of `pat`, mirroring the
scan of `pyReplaceAux`: the pieces of the string between occurrences.  Used
to state the replace-all characterization of `str.replace`. -/
def splitOnAux (pat : List Char) : Nat → List Char → List (List Char)
  | _, [] => [[]]
  | Nat.succ k, _ :: rest => splitOnAux pat k rest
  | 0, c :: rest =>
    if pat.isEmpty = false ∧ pat.isPrefixOf (c :: rest) = true then
      [] :: splitOnAux pat (pat.length - 1) rest
    else
      match splitOnAux pat 0 rest with
      | [] => [[c]]
      | p :: ps => (c :: p) :: ps

/-- Joining a list of pieces with a separator. -/
def joinWith (sep : List Char) : List (List Char) → List Char
  | [] => []
  | [p] => p
  | p :: q :: ps => p ++ sep ++ joinWith sep (q :: ps)

/-- Replacement of every occurrence of `pat` by `repl`, expressed as the
split/join characterization: split the string on the pattern and join the
pieces with the replacement. -/
def replaceAllSpec (s pat repl : String) : String :=
  ⟨joinWith repl.data (splitOnAux pat.data 0 s.data)⟩

lemma splitOnAux_ne_nil (pat : List Char) (s : List Char) :
    ∀ k, splitOnAux pat k s ≠ [] := by
  induction s with
  | nil => intro k; cases k <;> simp [splitOnAux]
  | cons c rest ih =>
    intro k
    cases k with
    | succ k => simpa [splitOnAux] using ih k
    | zero =>
      by_cases h : pat.isEmpty = false ∧ pat.isPrefixOf (c :: rest) = true
      · simp [splitOnAux, h]
      · have := ih 0
        simp only [splitOnAux, if_neg h]
        rcases hs : splitOnAux pat 0 rest with _ | ⟨p, ps⟩
        · simp
        · simp

lemma joinWith_cons_cons (sep p q : List Char) (ps : List (List Char)) :
    joinWith sep (p :: q :: ps) = p ++ sep ++ joinWith sep (q :: ps) := rfl

lemma pyReplaceAux_eq_join_split (pat repl : List Char) (s : List Char) :
    ∀ k, pyReplaceAux pat repl k s = joinWith repl (splitOnAux pat k s) := by
  induction s with
  | nil => intro k; cases k <;> simp [pyReplaceAux, splitOnAux, joinWith]
  | cons c rest ih =>
    intro k
    cases k with
    | succ k => simpa [pyReplaceAux, splitOnAux] using ih k
    | zero =>
      by_cases h : pat.isEmpty = false ∧ pat.isPrefixOf (c :: rest) = true
      · simp only [pyReplaceAux, splitOnAux, if_pos h]
        rw [ih (pat.length - 1)]
        rcases hs : splitOnAux pat (pat.length - 1) rest with _ | ⟨p, ps⟩
        · exact absurd hs (splitOnAux_ne_nil pat rest _)
        · cases ps with
          | nil => simp [joinWith]
          | cons q qs => simp [joinWith, List.append_assoc]
      · simp only [pyReplaceAux, splitOnAux, if_neg h]
        rw [ih 0]
        rcases hs : splitOnAux pat 0 rest with _ | ⟨p, ps⟩
        · exact absurd hs (splitOnAux_ne_nil pat rest 0)
        · cases ps with
          | nil => simp [joinWith]
          | cons q qs => simp [joinWith, List.append_assoc]

lemma pyReplace_eq_replaceAllSpec (s pat repl : String) :
    pyReplace s pat repl = replaceAllSpec s pat repl := by
  unfold pyReplace replaceAllSpec
  exact congrArg String.mk (pyReplaceAux_eq_join_split pat.data repl.data s.data 0)

example : ws_url "http://host/api/graphql" = "ws://host/api/graphql/ws" := rfl
example : ws_url "http://host/http/api/graphql"
    = "ws://host/ws/api/graphql/ws" := rfl

/-- An inbound WebSocket frame, after JSON decoding, as the subscription
protocol distinguishes them: the connection acknowledgment, a data-carrying
frame (its payload embedded as a string-keyed mapping), or any other control
frame (complete, error, ping, ...). -/
inductive WSFrame where
  | connectionAck : WSFrame
  | next : Headers → WSFrame
  | complete : WSFrame
  | otherControl : WSFrame
deriving DecidableEq

/-- A frame sent by `execute_ws` on the connection: the connection-init
control frame, or the subscribe frame carrying the operation identifier, the
query, the operation name and the variables (lines 120 and 130-136 of
`puzzle_client_patched.py`). -/
inductive OutFrame where
  | connectionInit : OutFrame
  | subscribe : String → String → Option String → Headers → OutFrame
deriving DecidableEq

/-- Modelled from the spec: the generated base client's `_handle_ws_message`
(module `puzzle.async_base_client`, not under `src/`) decodes an inbound
frame and returns its data payload when it carries one, and no payload for
control frames ("decode it; if it carries a data payload, yield it"). -/
def handle_ws_message : WSFrame → Option Headers
  | .next p => some p
  | _ => none

/-- Modelled from the spec: the generated base client's `_handle_ws_message`
called with `expected_type=CONNECTION_ACK` (line 123-127 of
`puzzle_client_patched.py`) "fails the subscription if not
received/mismatched" - it raises unless the frame is the connection
acknowledgment. -/
def expect_connection_ack : WSFrame → Except String Unit
  | .connectionAck => .ok ()
  | _ => .error "expected connection_ack"

/-- Embedding of lines 139-142 of `puzzle_client_patched.py`: for every frame
arriving after the subscribe frame, decode it and yield the result only when
it is truthy (`if data: yield data`), i.e. a present, non-empty mapping. -/
def yielded_data (frames : List WSFrame) : List Headers :=
  frames.filterMap (fun f =>
    match handle_ws_message f with
    | some d => if d.isEmpty then none else some d
    | none => none)

/-- Embedding of lines 113-142 of `puzzle_client_patched.py`: one run of the
`execute_ws` subscription over a single WebSocket connection whose inbound
frames are `inbound`.  Returns the frames sent on the connection and either
an error (the handshake exception, raised before any yield) or the list of
items yielded to the caller, in arrival order.  The run consumes exactly one
connection: no retry or reconnect exists in the code. -/
def execute_ws_run (operation_id query : String) (operation_name : Option String)
    (vars : Headers) (inbound : List WSFrame) :
    List OutFrame × Except String (List Headers) :=
  match inbound with
  | [] => ([.connectionInit], .error "connection closed before connection_ack")
  | first :: rest =>
    match expect_connection_ack first with
    | .error e => ([.connectionInit], .error e)
    | .ok _ =>
      ([.connectionInit, .subscribe operation_id query operation_name vars],
       .ok (yielded_data rest))

/-- The HTTP-transport exception of the generated client
(`puzzle.exceptions.GraphQLClientHttpError`), carrying the raw server
response. -/
structure GraphQLClientHttpError where
  response : String

/-- The arguments of one call to the generated client's login mutation. -/
structure LoginCall where
  domain_name : Option String
  username : String
  password : String
deriving DecidableEq

/-- Embedding of line 69 of `main.py`: the `domain_name` argument passed to
the login call, `domain if domain and len(domain) > 0 else None`. -/
def domain_arg : Option String → Option String
  | some d => if 0 < d.length then some d else none
  | none => none

/-- Embedding of lines 52-85 of `main.py` (`PuzzleReactor.login`): validates
credentials locally, then performs the login call.  The network is passed as
an explicit function from the call's arguments to either an HTTP-transport
error or the truthiness of `response.login`.  Returns the boolean result
together with the list of network calls made. -/
def login (domain username password : Option String)
    (net : LoginCall → Except GraphQLClientHttpError Bool) :
    Bool × List LoginCall :=
  match username, password with
  | some u, some p =>
    let call : LoginCall := ⟨domain_arg domain, u, p⟩
    match net call with
    | .error _ => (false, [call])
    | .ok loggedIn => (loggedIn, [call])
  | _, _ => (false, [])

/-- A project as returned by the generated `get_projects` query
(`puzzle.get_projects.GetProjectsProjects`): only the field the code
inspects is embedded, plus a title to distinguish projects. -/
structure GetProjectsProjects where
  title : String
  done_at : Option String
deriving DecidableEq

/-- Embedding of lines 87-106 of `main.py` (`PuzzleReactor.fetch_projects`):
the response (or the HTTP-transport error the query raised) is passed
explicitly; a truthy (non-empty) project list is filtered to the projects
with `done_at is None`; a falsy list or an HTTP error gives `[]`. -/
def fetch_projects
    (resp : Except GraphQLClientHttpError (Option (List GetProjectsProjects))) :
    List GetProjectsProjects :=
  match resp with
  | .error _ => []
  | .ok none => []
  | .ok (some ps) =>
    if ps.isEmpty then [] else ps.filter (fun p => p.done_at.isNone)

lemma yielded_data_map_next (datas : List Headers)
    (h : ∀ d ∈ datas, d ≠ []) :
    yielded_data (datas.map WSFrame.next) = datas := by
  induction datas with
  | nil => rfl
  | cons d t ih =>
    cases d with
    | nil => exact absurd rfl (h [] (by simp))
    | cons x xs =>
      simp only [List.map_cons, yielded_data, List.filterMap_cons,
        handle_ws_message, List.isEmpty_cons]
      exact congrArg (List.cons (x :: xs)) (ih fun d hd => h d (by simp [hd]))

/-- C1: at the moment `execute_ws` opens the WebSocket connection, a
non-empty cookie jar makes the connection headers carry a `Cookie` header
that is exactly the jar's name=value pairs joined by "; " in jar iteration
order; an empty jar adds no `Cookie` header (the headers are exactly the
defaults updated with the caller's extras); and jar {a: 1, b: 2} serializes
to "a=1; b=2".  The embedding takes the jar as a snapshot argument, so the
header is computed once and never refreshed during the connection. -/
theorem cookie_snapshot_forwarding (w e : Headers)
    (jar : List (String × String)) :
    (jar ≠ [] →
      dictGet (ws_headers_for_connection w e jar) "Cookie"
        = some (cookie_header jar))
    ∧ (jar = [] → ws_headers_for_connection w e jar = dictUpdate w e)
    ∧ cookie_header [("a", "1"), ("b", "2")] = "a=1; b=2" := by
  refine ⟨?_, ?_, by decide⟩
  · intro hjar
    cases jar with
    | nil => exact absurd rfl hjar
    | cons c rest =>
      simp [ws_headers_for_connection, cookie_header_ne_empty c rest,
        dictGet_dictInsert]
  · intro hjar
    subst hjar
    rfl

/-- Witness for cookie_snapshot_forwarding at the spec's example jar. -/
theorem cookie_snapshot_forwarding_witness :
    dictGet (ws_headers_for_connection [] [] [("a", "1"), ("b", "2")]) "Cookie"
      = some "a=1; b=2" := by
  have h := (cookie_snapshot_forwarding [] [] [("a", "1"), ("b", "2")]).1
    (by decide)
  exact h.trans (by decide)

/-- C2 counterexample: Python's `str.replace` replaces every occurrence, not
only the scheme token and the path suffix.  On the endpoint
"http://host/http/api/graphql" the code also rewrites the path segment
"http" to "ws", so the derived URL differs from the one the claim
("nothing else changed") requires. -/
theorem ws_url_not_scheme_only_counterexample :
    ws_url "http://host/http/api/graphql" = "ws://host/ws/api/graphql/ws"
    ∧ "ws://host/ws/api/graphql/ws" ≠ "ws://host/http/api/graphql/ws" :=
  ⟨rfl, by decide⟩

/-- C2 amended: the derived WebSocket URL is the input with every
(left-to-right, non-overlapping) occurrence of "http" replaced by "ws" and
then every occurrence of "/api/graphql" replaced by "/api/graphql/ws" - the
split/join characterization of replace-all - and in particular
"http://host/api/graphql" yields "ws://host/api/graphql/ws". -/
theorem ws_url_replaces_all_occurrences (api : String) :
    ws_url api
      = replaceAllSpec (replaceAllSpec api "http" "ws")
          "/api/graphql" "/api/graphql/ws"
    ∧ ws_url "http://host/api/graphql" = "ws://host/api/graphql/ws" := by
  refine ⟨?_, rfl⟩
  unfold ws_url
  rw [pyReplace_eq_replaceAllSpec, pyReplace_eq_replaceAllSpec]

/-- C3 counterexample: with cookie jar {a: 1} and caller-supplied header
Cookie: x=9, `execute_ws` gives the Cookie key the jar's value "a=1" (the
cookie header is written after the caller's headers), so the headers are not
the merge in which the caller-supplied value wins for every key. -/
theorem header_merge_caller_wins_counterexample :
    ws_headers_for_connection [] [("Cookie", "x=9")] [("a", "1")]
        ≠ spec_header_merge [] [("Cookie", "x=9")] [("a", "1")]
    ∧ dictGet (ws_headers_for_connection [] [("Cookie", "x=9")] [("a", "1")])
        "Cookie" = some "a=1" := by decide

/-- C3 amended: the headers passed to the WebSocket connection are the
default headers updated with the caller-supplied headers (caller wins for
every key), except that when the cookie jar is non-empty the jar-derived
cookie header overwrites the "Cookie" key from either source. -/
theorem header_merge_cookie_overrides_caller (w e : Headers)
    (jar : List (String × String)) :
    ws_headers_for_connection w e jar
      = (if jar.isEmpty then dictUpdate w e
         else dictInsert (dictUpdate w e) "Cookie" (cookie_header jar)) := by
  cases jar with
  | nil => rfl
  | cons c rest =>
    simp [ws_headers_for_connection, cookie_header_ne_empty c rest]

/-- C4: when the first inbound frame is not the connection acknowledgment,
the subscription run fails with an exception - only the connection-init
frame was sent, no subscribe frame - and no data item is yielded to the
caller (the result carries an error instead of a list of items). -/
theorem non_ack_first_frame_fails (operation_id query : String)
    (operation_name : Option String) (vars : Headers)
    (first : WSFrame) (rest : List WSFrame)
    (h : first ≠ WSFrame.connectionAck) :
    (execute_ws_run operation_id query operation_name vars (first :: rest)).1
        = [OutFrame.connectionInit]
    ∧ ∃ e, (execute_ws_run operation_id query operation_name vars
        (first :: rest)).2 = Except.error e := by
  cases first with
  | connectionAck => exact absurd rfl h
  | next p => exact ⟨rfl, ⟨_, rfl⟩⟩
  | complete => exact ⟨rfl, ⟨_, rfl⟩⟩
  | otherControl => exact ⟨rfl, ⟨_, rfl⟩⟩

/-- Witness for non_ack_first_frame_fails: a complete frame arriving first.  -/
theorem non_ack_first_frame_fails_witness :
    (execute_ws_run "id1" "query1" none [] [WSFrame.complete]).1
        = [OutFrame.connectionInit]
    ∧ ∃ e, (execute_ws_run "id1" "query1" none [] [WSFrame.complete]).2
        = Except.error e :=
  non_ack_first_frame_fails "id1" "query1" none [] WSFrame.complete []
    (by decide)

/-- C5: when the inbound frames are the connection acknowledgment followed by
exactly the data frames carrying the (non-empty) payloads `datas` and then
the connection closes, the run yields exactly those payloads, in arrival
order, and terminates; the frames sent are exactly one connection-init and
one subscribe frame - no retry or reconnect happens after the close. -/
theorem ack_then_n_data_frames_yield_n_items (operation_id query : String)
    (operation_name : Option String) (vars : Headers) (datas : List Headers)
    (h : ∀ d ∈ datas, d ≠ []) :
    execute_ws_run operation_id query operation_name vars
        (WSFrame.connectionAck :: datas.map WSFrame.next)
      = ([OutFrame.connectionInit,
          OutFrame.subscribe operation_id query operation_name vars],
         Except.ok datas) := by
  simp only [execute_ws_run, expect_connection_ack]
  rw [yielded_data_map_next datas h]

/-- Witness for ack_then_n_data_frames_yield_n_items with two data frames. -/
theorem ack_then_n_data_frames_yield_n_items_witness :
    execute_ws_run "id2" "query2" none []
        (WSFrame.connectionAck
          :: ([[("k", "v")], [("k", "w")]].map WSFrame.next))
      = ([OutFrame.connectionInit, OutFrame.subscribe "id2" "query2" none []],
         Except.ok [[("k", "v")], [("k", "w")]]) :=
  ack_then_n_data_frames_yield_n_items "id2" "query2" none []
    [[("k", "v")], [("k", "w")]] (by decide)

/-- C8: each invocation of execute_ws uses the operation identifier generated
inside that invocation: the subscribe frame it sends carries exactly that
identifier together with the query, operation name and variables, and an
attempt with a different generated identifier never sends this attempt's
subscribe frame.  (The generator `str(uuid4())` is embedded as the
per-invocation identifier argument; distinct attempts drawing distinct
identifiers is the hypothesis.) -/
theorem subscribe_carries_fresh_operation_id (oid oid2 q q2 : String)
    (opn opn2 : Option String) (vars vars2 : Headers)
    (rest rest2 : List WSFrame) (h : oid ≠ oid2) :
    (execute_ws_run oid q opn vars (WSFrame.connectionAck :: rest)).1
        = [OutFrame.connectionInit, OutFrame.subscribe oid q opn vars]
    ∧ OutFrame.subscribe oid q opn vars
        ∉ (execute_ws_run oid2 q2 opn2 vars2
            (WSFrame.connectionAck :: rest2)).1 := by
  refine ⟨rfl, ?_⟩
  intro hmem
  simp only [execute_ws_run, expect_connection_ack, List.mem_cons,
    List.mem_singleton, List.not_mem_nil, or_false] at hmem
  rcases hmem with hmem | hmem
  · exact OutFrame.noConfusion hmem
  · exact h (by injection hmem)

/-- Witness for subscribe_carries_fresh_operation_id at two distinct ids. -/
theorem subscribe_carries_fresh_operation_id_witness :
    (execute_ws_run "ida" "q" none [] [WSFrame.connectionAck]).1
        = [OutFrame.connectionInit, OutFrame.subscribe "ida" "q" none []]
    ∧ OutFrame.subscribe "ida" "q" none []
        ∉ (execute_ws_run "idb" "q" none [] [WSFrame.connectionAck]).1 :=
  subscribe_carries_fresh_operation_id "ida" "idb" "q" "q" none none [] []
    [] [] (by decide)

/-- C10: a frame arriving after the subscribe frame whose decoded payload is
absent (a control frame) or an empty mapping is silently skipped: removing it
from the inbound sequence leaves the yielded items unchanged, so it produces
no item in the output sequence. -/
theorem falsy_decoded_frames_are_skipped (operation_id query : String)
    (operation_name : Option String) (vars : Headers)
    (pre post : List WSFrame) (f : WSFrame)
    (h : handle_ws_message f = none ∨ handle_ws_message f = some []) :
    (execute_ws_run operation_id query operation_name vars
        (WSFrame.connectionAck :: (pre ++ f :: post))).2
      = (execute_ws_run operation_id query operation_name vars
          (WSFrame.connectionAck :: (pre ++ post))).2 := by
  simp only [execute_ws_run, expect_connection_ack]
  simp only [yielded_data, List.filterMap_append, List.filterMap_cons]
  rcases h with h | h <;> simp [h]

/-- Witness for falsy_decoded_frames_are_skipped: a complete frame between
two data frames is skipped. -/
theorem falsy_decoded_frames_are_skipped_witness :
    (execute_ws_run "id3" "query3" none []
        (WSFrame.connectionAck
          :: ([WSFrame.next [("k", "v")]]
              ++ WSFrame.complete :: [WSFrame.next [("k", "w")]]))).2
      = (execute_ws_run "id3" "query3" none []
          (WSFrame.connectionAck
            :: ([WSFrame.next [("k", "v")]] ++ [WSFrame.next [("k", "w")]]))).2 :=
  falsy_decoded_frames_are_skipped "id3" "query3" none []
    [WSFrame.next [("k", "v")]] [WSFrame.next [("k", "w")]]
    WSFrame.complete (Or.inl rfl)

/-- C6: when the username or the password credential is missing,
`PuzzleReactor.login` returns failure and the list of network calls made is
empty - the validation is local. -/
theorem login_missing_credentials_no_network (domain username password : Option String)
    (net : LoginCall → Except GraphQLClientHttpError Bool)
    (h : username = none ∨ password = none) :
    login domain username password net = (false, []) := by
  rcases h with h | h
  · subst h; cases password <;> rfl
  · subst h; cases username <;> rfl

/-- Witness for login_missing_credentials_no_network with both missing. -/
theorem login_missing_credentials_no_network_witness :
    login none none none (fun _ => Except.ok true) = (false, []) :=
  login_missing_credentials_no_network none none none
    (fun _ => Except.ok true) (Or.inl rfl)

/-- C7: when the login call raises the HTTP-transport error,
`PuzzleReactor.login` returns the failure signal false instead of
propagating the exception, and the call list has exactly one element - the
failed call - so no retry is made; the failure is terminal for that login. -/
theorem login_http_error_returns_false (domain : Option String) (u p : String)
    (net : LoginCall → Except GraphQLClientHttpError Bool)
    (e : GraphQLClientHttpError)
    (h : net ⟨domain_arg domain, u, p⟩ = Except.error e) :
    login domain (some u) (some p) net
      = (false, [⟨domain_arg domain, u, p⟩]) := by
  simp [login, h]

/-- Witness for login_http_error_returns_false at a failing network. -/
theorem login_http_error_returns_false_witness :
    login none (some "user") (some "pw")
        (fun _ => Except.error ⟨"500 internal server error"⟩)
      = (false, [⟨none, "user", "pw"⟩]) :=
  login_http_error_returns_false none "user" "pw"
    (fun _ => Except.error ⟨"500 internal server error"⟩)
    ⟨"500 internal server error"⟩ rfl

/-- C9: `PuzzleReactor.fetch_projects` returns exactly the projects of the
response whose `done_at` is None, in response order (a falsy - empty or
absent - project list gives the empty list, and the filter of an empty list
is empty, so the equation is uniform); it returns the empty list when the
query raises the HTTP-transport error, never propagating it. -/
theorem fetch_projects_active_only (ps : List GetProjectsProjects)
    (e : GraphQLClientHttpError) :
    fetch_projects (Except.ok (some ps))
        = ps.filter (fun p => p.done_at.isNone)
    ∧ fetch_projects (Except.ok none) = []
    ∧ fetch_projects (Except.error e) = [] := by
  refine ⟨?_, rfl, rfl⟩
  cases ps <;> simp [fetch_projects]
